import Mathlib

/-!
Shallow embedding of the bridge-chatbot web chat relay (src/app.py) and
verification of the frozen claims about its specification.

Strings are modelled as lists of characters (`Str`); Python's truthiness of
strings and lists is modelled by emptiness tests.  The remote model gateway is
external: each handler takes the outcome of every gateway call it may perform
as an explicit parameter (`Except PyExn _` mirrors Python exceptions), and the
handlers additionally return the trace of gateway calls they actually issued.
-/

namespace BridgeChatbot

/-- Python strings, modelled as lists of characters. -/
abbrev Str := List Char

/-- Python's `str.lower()` (ASCII letters; other characters unchanged,
matching `Char.toLower`). -/
def lowerStr (s : Str) : Str := s.map Char.toLower

/-- Boolean test that `p` is a leading segment of `s` (Python `startswith`). -/
def hasPref : Str → Str → Bool
  | [], _ => true
  | _ :: _, [] => false
  | a :: p, b :: s => a = b && hasPref p s

/-- Boolean test that `n` occurs as a contiguous substring of `h`
(Python's `in` operator on strings). -/
def substr (n : Str) : Str → Bool
  | [] => hasPref n []
  | h@(_ :: t) => hasPref n h || substr n t

/-- Boolean test that `p` is a trailing segment of `s`. -/
def hasSuf (p s : Str) : Bool := hasPref p.reverse s.reverse

theorem hasPref_iff (p s : Str) : hasPref p s = true ↔ p <+: s := by
  induction p generalizing s with
  | nil => simp [hasPref]
  | cons a p ih =>
    cases s with
    | nil => simp [hasPref]
    | cons b s =>
      simp only [hasPref, Bool.and_eq_true, decide_eq_true_eq, ih,
        List.cons_prefix_cons]

theorem substr_iff (n h : Str) : substr n h = true ↔ n <:+: h := by
  induction h with
  | nil =>
    cases n with
    | nil => simp [substr, hasPref]
    | cons a p => simp [substr, hasPref, List.infix_nil]
  | cons b t ih =>
    simp only [substr, Bool.or_eq_true, hasPref_iff, ih, List.infix_cons_iff]

theorem hasSuf_iff (p s : Str) : hasSuf p s = true ↔ p <:+ s := by
  rw [hasSuf, hasPref_iff, List.reverse_prefix]

/-! ## Constants of app.py -/

/-- System prompt sent once per session (SYSTEM_INSTRUCTION in app.py). -/
def SYSTEM_INSTRUCTION : Str :=
  "あなたは親切で役立つアシスタントです。日本語で応答してください。".data

/-- Default model identifier (DEFAULT_MODEL in app.py). -/
def DEFAULT_MODEL : Str := "gemini-3-flash-preview".data

/-- Keywords marking image-generation models
(IMAGE_GENERATION_MODEL_KEYWORDS in app.py). -/
def IMAGE_GENERATION_MODEL_KEYWORDS : List Str := ["image".data, "imagen".data]

/-- A Python exception, reduced to the data the handlers inspect:
its type name (`type(e).__name__`) and its message (`str(e)`). -/
structure PyExn where
  typeName : Str
  msg : Str
deriving DecidableEq

/-- A model object returned by the gateway's `client.models.list()`:
its `name`, optional `display_name`, and `supported_generation_methods`
(`getattr` default `[]` collapses an absent attribute and an empty list). -/
structure GwModel where
  name : Str
  display_name : Option Str
  supported_generation_methods : List Str
deriving DecidableEq

/-- One entry of the `/models` response. -/
structure ModelDescriptor where
  id : Str
  name : Str
  description : Str
deriving DecidableEq

/-! ## get_models (GET /models) -/

/-- Python `model.name.split('/')[-1] if '/' in model.name else model.name`. -/
def lastComponent (name : Str) : Str :=
  if '/' ∈ name then (name.splitOn '/').getLastD [] else name

/-- Single-quote character, used when rendering Python lists as text. -/
def squote : Char := Char.ofNat 39

/-- Python `str` applied to a list of strings, e.g. `['a', 'b']`. -/
def pyStrList : List Str → Str
  | [] => ['[', ']']
  | x :: xs =>
    ['['] ++ (squote :: x ++ [squote]) ++
      (xs.map fun y => [',', ' '] ++ (squote :: y ++ [squote])).flatten ++ [']']

/-- The filter on line 55 of app.py:
`'gemini' in model_name.lower() or 'nano' in model_name.lower()`. -/
def familyFilter (n : Str) : Bool :=
  substr "gemini".data (lowerStr n) || substr "nano".data (lowerStr n)

/-- The generation-support filter on line 63 of app.py:
`not supported_methods or 'generateContent' in supported_methods or
'chat' in str(supported_methods).lower()`. -/
def generationSupported (methods : List Str) : Bool :=
  methods.isEmpty || methods.contains "generateContent".data ||
    substr "chat".data (lowerStr (pyStrList methods))

/-- Display name resolution on line 65 of app.py: `display_name` attribute if
present and non-empty, else the id with `-`/`_` turned into spaces. -/
def displayNameOf (m : GwModel) (n : Str) : Str :=
  let replaced := n.map fun c => if c = '-' ∨ c = '_' then ' ' else c
  match m.display_name with
  | some d => if d.isEmpty then replaced else d
  | none => replaced

/-- The model-collection loop of `get_models` (lines 52-71 of app.py):
dedup via `seen_ids` (which is extended before the generation-support check),
keeping descriptors in enumeration order. -/
def buildAvailable (seen : List Str) : List GwModel → List ModelDescriptor
  | [] => []
  | m :: ms =>
    let n := lastComponent m.name
    if familyFilter n then
      if seen.contains n then buildAvailable seen ms
      else if generationSupported m.supported_generation_methods then
        ⟨n, displayNameOf m n, []⟩ :: buildAvailable (n :: seen) ms
      else buildAvailable (n :: seen) ms
    else buildAvailable seen ms

/-- Lexicographic comparison of strings by code point (Python `<=` on str). -/
def strLe : Str → Str → Bool
  | [], _ => true
  | _ :: _, [] => false
  | a :: as, b :: bs => if a < b then true else if a = b then strLe as bs else false

/-- Python sort key on line 80 of app.py:
`(x['id'] != DEFAULT_MODEL, x['id'])`, compared lexicographically. -/
def modelLe (a b : ModelDescriptor) : Bool :=
  let ka : Bool := a.id ≠ DEFAULT_MODEL
  let kb : Bool := b.id ≠ DEFAULT_MODEL
  if ka = kb then strLe a.id b.id else !ka

/-- Insert into a sorted list, before the first element it is `modelLe` to. -/
def insertLe (x : ModelDescriptor) : List ModelDescriptor → List ModelDescriptor
  | [] => [x]
  | y :: ys => if modelLe x y then x :: y :: ys else y :: insertLe x ys

/-- Sorting of the catalog (`available_models.sort(key=...)` on line 80). -/
def sortModels : List ModelDescriptor → List ModelDescriptor
  | [] => []
  | x :: xs => insertLe x (sortModels xs)

/-- Body of a `/models` response: either an error object or a model list. -/
inductive ModelsBody where
  | err (msg : Str)
  | ok (models : List ModelDescriptor)
deriving DecidableEq

/-- Error message when the API key is missing. -/
def keyMissingMsg : Str :=
  "Gemini APIキーが設定されていません。.envファイルにGEMINI_API_KEYを設定してください。".data

/-- The `get_models` handler (lines 36-92 of app.py).  `apiKeyConfigured`
models the presence of GEMINI_API_KEY (and hence of `client`); `enum` is the
outcome of the gateway call `client.models.list()`. -/
def get_models (apiKeyConfigured : Bool)
    (enum : Except PyExn (List GwModel)) : Nat × ModelsBody :=
  if !apiKeyConfigured then (500, .err keyMissingMsg)
  else
    match enum with
    | .error e =>
        (500, .err ("モデル一覧の取得に失敗しました: ".data ++ e.msg))
    | .ok ms =>
        let available := buildAvailable [] ms
        if available.isEmpty then
          (500, .err "利用可能なモデルが見つかりませんでした。".data)
        else (200, .ok (sortModels available))

/-! ## Session registry state -/

/-- One value of the `chat_sessions` dictionary (lines 143-153 of app.py):
the conversation handle (modelled as an opaque numeric id), the
`initialized` flag and the `is_image_model` tag. -/
structure SessionEntry where
  chat : Nat
  initialized : Bool
  is_image_model : Bool
deriving DecidableEq

/-- The process-wide mutable state: the `chat_sessions` dictionary (an
insertion-ordered association list with unique keys, as a Python dict) and a
counter supplying fresh conversation-handle ids. -/
structure ServerState where
  chat_sessions : List (Str × SessionEntry)
  nextHandle : Nat
deriving DecidableEq

/-- Dictionary lookup `chat_sessions[k]` / `k in chat_sessions`. -/
def lookupSession (k : Str) : List (Str × SessionEntry) → Option SessionEntry
  | [] => none
  | kv :: rest => if kv.1 = k then some kv.2 else lookupSession k rest

/-- In-place mutation of the entry stored under key `k`
(`chat_data['initialized'] = True`). -/
def updateSession (k : Str) (f : SessionEntry → SessionEntry) :
    List (Str × SessionEntry) → List (Str × SessionEntry)
  | [] => []
  | kv :: rest =>
    if kv.1 = k then (kv.1, f kv.2) :: rest else kv :: updateSession k f rest

/-- The registry key on line 134 of app.py: `f"{session_id}_{model_id}"`. -/
def session_key (sid mid : Str) : Str := sid ++ '_' :: mid

/-- Flip the `initialized` flag of an entry to true. -/
def setInitialized (e : SessionEntry) : SessionEntry :=
  ⟨e.chat, true, e.is_image_model⟩

/-- One gateway call issued by the chat handler, tagged by call site. -/
inductive GwEvent where
  | listModels
  | createChat (model : Str) (imageConfig : Bool) (handle : Nat)
  | sendSystemInstruction (handle : Nat) (text : Str)
  | sendUserMessage (handle : Nat) (text : Str)
deriving DecidableEq

/-! ## Gateway response decomposition (lines 173-196 of app.py) -/

/-- The `inline_data` attribute of a response part: raw bytes and an optional
mime type (absent or empty falls back to `image/png` via Python `or`). -/
structure InlineData where
  data : List Nat
  mime_type : Option Str
deriving DecidableEq

/-- One response part.  `thought` models `getattr(part, 'thought', False)`;
`text` and `inline_data` are `none` when the attribute is absent or None. -/
structure Part where
  thought : Bool
  text : Option Str
  inline_data : Option InlineData
deriving DecidableEq

/-- A gateway response.  The outer `Option` of each field models `hasattr`;
for `text` the inner `Option` models a None value. -/
structure Response where
  parts : Option (List Part)
  text : Option (Option Str)
deriving DecidableEq

/-- Base64 alphabet. -/
def b64chars : Str :=
  "ABCDEFGHIJKLMNOPQRSTUVWXYZabcdefghijklmnopqrstuvwxyz0123456789+/".data

/-- Character of the base64 alphabet at index `n`. -/
def b64char (n : Nat) : Char := b64chars.getD n 'A'

/-- Standard base64 encoding of a byte sequence (`base64.b64encode`). -/
def b64encode : List Nat → Str
  | [] => []
  | [a] => [b64char (a / 4 % 64), b64char (a % 4 * 16), '=', '=']
  | [a, b] => [b64char (a / 4 % 64), b64char (a % 4 * 16 + b / 16),
      b64char (b % 16 * 4), '=']
  | a :: b :: c :: rest =>
      [b64char (a / 4 % 64), b64char (a % 4 * 16 + b / 16),
        b64char (b % 16 * 4 + c / 64), b64char (c % 64)] ++ b64encode rest

/-- The data URI built on lines 188-190 of app.py, with the mime type
defaulting to `image/png` when absent or empty. -/
def dataURI (d : InlineData) : Str :=
  let mime := match d.mime_type with
    | some m => if m.isEmpty then "image/png".data else m
    | none => "image/png".data
  "data:".data ++ mime ++ ";base64,".data ++ b64encode d.data

/-- Line 178 of app.py: `response.parts if hasattr(response, 'parts') and
response.parts else None` (an empty parts list is falsy). -/
def partsOrNone (r : Response) : Option (List Part) :=
  match r.parts with
  | some ps => if ps.isEmpty then none else some ps
  | none => none

/-- The extraction loop on lines 180-192 of app.py, accumulating the
concatenated text and the data URIs in order. -/
def extractLoop : List Part → Str → List Str → Str × List Str
  | [], text, imgs => (text, imgs)
  | p :: rest, text, imgs =>
    if p.thought then extractLoop rest text imgs
    else
      let text1 := match p.text with
        | some t => if t.isEmpty then text else text ++ t
        | none => text
      let imgs1 := match p.inline_data with
        | some d => if d.data.isEmpty then imgs else imgs ++ [dataURI d]
        | none => imgs
      extractLoop rest text1 imgs1

/-- Response decomposition (lines 173-196 of app.py): run the parts loop,
then fall back to `response.text or ''` when no text and no images were
produced and the response has a `text` attribute. -/
def extractResponse (r : Response) : Str × List Str :=
  let out := match partsOrNone r with
    | some ps => extractLoop ps [] []
    | none => ([], [])
  if out.1.isEmpty && out.2.isEmpty then
    match r.text with
    | some t => (t.getD [], out.2)
    | none => out
  else out

/-! ## Exception classification (lines 197-257 of app.py) -/

/-- Error message of the 429 (quota) branches. -/
def quotaMsg : Str :=
  "APIのクォータ制限に達しました。しばらく待ってから再試行してください。".data

/-- Error message of the 503 branches. -/
def overloadedMsg : Str :=
  "モデルが過負荷です。しばらく待ってから再試行してください。".data

/-- Error message of the 401 branches. -/
def badKeyMsg : Str := "Gemini APIキーが無効です".data

/-- Error message of the rate-limit branch on line 223 of app.py. -/
def rateLimitMsg : Str :=
  "APIのレート制限に達しました。しばらく待ってから再試行してください。".data

/-- The inner `except` classifier of lines 205-226 of app.py.  `none` means
the final `else` branch: the exception is re-raised (wrapped) and handled by
the outer classifier. -/
def classifyInner (mid : Str) (e : PyExn) : Option (Nat × Str) :=
  if substr "429".data e.msg ||
      substr "resource_exhausted".data (lowerStr e.msg) ||
      substr "RateLimitError".data e.typeName ||
      substr "ClientError".data e.typeName then
    some (429, quotaMsg)
  else if substr "ServerError".data e.typeName || substr "503".data e.msg ||
      substr "unavailable".data (lowerStr e.msg) ||
      substr "overloaded".data (lowerStr e.msg) then
    some (503, overloadedMsg)
  else if substr "NotFoundError".data e.typeName ||
      substr "404".data e.msg ||
      (substr "not found".data (lowerStr e.msg) &&
        substr "model".data (lowerStr e.msg)) then
    some (404, "モデルが見つかりません: ".data ++ mid)
  else if substr "AuthenticationError".data e.typeName ||
      substr "401".data e.msg ||
      substr "authentication".data (lowerStr e.msg) ||
      substr "api key".data (lowerStr e.msg) ||
      substr "unauthorized".data (lowerStr e.msg) then
    some (401, badKeyMsg)
  else if substr "rate limit".data (lowerStr e.msg) ||
      substr "quota".data (lowerStr e.msg) then
    some (429, rateLimitMsg)
  else none

/-- Message prefix of the re-raised exception on line 226 of app.py. -/
def wrapMsg : Str := "Gemini API呼び出しエラー: ".data

/-- The outer `except` classifier of lines 238-257 of app.py, applied to the
message of the caught exception. -/
def classifyOuter (m : Str) : Nat × Str :=
  if substr "503".data m || substr "unavailable".data (lowerStr m) ||
      substr "overloaded".data (lowerStr m) then
    (503, overloadedMsg)
  else if substr "authentication".data (lowerStr m) ||
      substr "api key".data (lowerStr m) ||
      substr "invalid".data (lowerStr m) ||
      substr "unauthorized".data (lowerStr m) then
    (401, badKeyMsg)
  else if substr "429".data m ||
      substr "resource_exhausted".data (lowerStr m) ||
      substr "rate limit".data (lowerStr m) ||
      substr "quota".data (lowerStr m) then
    (429, quotaMsg)
  else if substr "not found".data (lowerStr m) &&
      substr "model".data (lowerStr m) && substr "404".data m then
    (404, "モデルが見つかりません: ".data ++ m)
  else (500, "エラーが発生しました: ".data ++ m)

/-- Full classification of an exception raised while sending the user turn:
the inner classifier, falling through to the outer one applied to the
wrapped message `Gemini API呼び出しエラー: {msg}`. -/
def classifyChatError (mid : Str) (e : PyExn) : Nat × Str :=
  match classifyInner mid e with
  | some r => r
  | none => classifyOuter (wrapMsg ++ e.msg)

/-! ## chat (POST /chat) -/

/-- Body of a `/chat` response.  In `ok`, `images` is `none` when the
`images` key is omitted (empty image list). -/
inductive ChatBody where
  | err (msg : Str)
  | ok (response : Str) (session_id : Str) (model : Str)
      (images : Option (List Str))
deriving DecidableEq

/-- Result of one `/chat` request: HTTP status, JSON body, the registry
state after the request, and the trace of gateway calls issued. -/
structure ChatOutcome where
  status : Nat
  body : ChatBody
  state : ServerState
  events : List GwEvent
deriving DecidableEq

/-- Error message for an empty message (line 104 of app.py). -/
def emptyMsgErr : Str := "メッセージが空です".data

/-- The model-validation list of lines 115-117 of app.py: last name
components of the enumerated models whose lowercase form contains
`gemini`. -/
def availableForChat (ms : List GwModel) : List Str :=
  (ms.map fun m => lastComponent m.name).filter
    fun n => substr "gemini".data (lowerStr n)

/-- Error message when the selected model fails validation
(lines 120-122 of app.py). -/
def unavailableModelMsg (mid : Str) : Str :=
  "モデル \"".data ++ mid ++
    "\" は利用できません。利用可能なモデルを選択してください。".data

/-- Line 131 of app.py: the model id lexically matches an image-generation
keyword. -/
def isImageModel (mid : Str) : Bool :=
  IMAGE_GENERATION_MODEL_KEYWORDS.any fun kw => substr kw (lowerStr mid)

/-- Steps of the chat handler from the point where a session entry is at
hand (lines 155-236 of app.py): one-time system instruction (its failure is
swallowed, `initialized` set either way), then the user turn, extraction on
success and classification on failure. -/
def chatWithEntry (user_message session_id model_id : Str)
    (st1 : ServerState) (key : Str)
    (entry : SessionEntry) (ev1 : List GwEvent)
    (userSend : Except PyExn Response) : ChatOutcome :=
  let handle := entry.chat
  let st2 :=
    if entry.initialized then st1
    else ServerState.mk
      (updateSession key setInitialized st1.chat_sessions) st1.nextHandle
  let ev2 :=
    if entry.initialized then ([] : List GwEvent)
    else [GwEvent.sendSystemInstruction handle SYSTEM_INSTRUCTION]
  let evs := [GwEvent.listModels] ++ ev1 ++ ev2 ++
    [GwEvent.sendUserMessage handle user_message]
  match userSend with
  | .ok resp =>
      let out := extractResponse resp
      ⟨200, .ok out.1 session_id model_id
        (if out.2.isEmpty then none else some out.2), st2, evs⟩
  | .error e =>
      let r := classifyChatError model_id e
      ⟨r.1, .err r.2, st2, evs⟩

/-- The chat handler (lines 94-257 of app.py).  `apiKeyConfigured` models the
presence of GEMINI_API_KEY; `enum` is the outcome of the validation call
`client.models.list()`; `sysSend` the outcome of sending the system
instruction (never inspected: the code ignores it apart from logging);
`userSend` the outcome of sending the user message. -/
def chat (apiKeyConfigured : Bool) (st : ServerState)
    (user_message session_id model_id : Str)
    (enum : Except PyExn (List GwModel))
    (sysSend : Except PyExn Unit)
    (userSend : Except PyExn Response) : ChatOutcome :=
  if user_message.isEmpty then ⟨400, .err emptyMsgErr, st, []⟩
  else if !apiKeyConfigured then ⟨500, .err keyMissingMsg, st, []⟩
  else
    match enum with
    | .error e =>
        ⟨500, .err ("モデルの検証に失敗しました: ".data ++ e.msg), st,
          [GwEvent.listModels]⟩
    | .ok ms =>
        if !(availableForChat ms).contains model_id then
          ⟨400, .err (unavailableModelMsg model_id), st, [GwEvent.listModels]⟩
        else
          let key := session_key session_id model_id
          match lookupSession key st.chat_sessions with
          | some entry =>
              chatWithEntry user_message session_id model_id st key entry []
                userSend
          | none =>
              let entry : SessionEntry :=
                ⟨st.nextHandle, false, isImageModel model_id⟩
              let st1 : ServerState :=
                ⟨st.chat_sessions ++ [(key, entry)], st.nextHandle + 1⟩
              chatWithEntry user_message session_id model_id st1 key entry
                [GwEvent.createChat model_id (isImageModel model_id)
                  st.nextHandle] userSend

/-! ## clear_history (POST /clear) -/

/-- Result of one `/clear` request. -/
structure ClearOutcome where
  status : Nat
  message : Str
  state : ServerState
deriving DecidableEq

/-- The clear handler (lines 259-272 of app.py): delete every key that
starts with `f"{session_id}_"`; always report success. -/
def clear_history (st : ServerState) (session_id : Str) : ClearOutcome :=
  ⟨200, "チャット履歴をクリアしました".data,
    ServerState.mk
      (st.chat_sessions.filter
        fun kv => !(hasPref (session_id ++ ['_']) kv.1))
      st.nextHandle⟩

/-! ## Helper lemmas -/

theorem hasPref_self_append (p rest : Str) : hasPref p (p ++ rest) = true := by
  rw [hasPref_iff]; exact ⟨rest, rfl⟩

/-- Splitting an equation `sid1 ++ '_' :: rest1 = sid2 ++ '_' :: rest2` at
the separator is unambiguous when neither session id contains `'_'`. -/
theorem sep_append_inj (sid1 : Str) (rest1 : Str) (sid2 rest2 : Str)
    (h1 : '_' ∉ sid1) (h2 : '_' ∉ sid2)
    (h : sid1 ++ '_' :: rest1 = sid2 ++ '_' :: rest2) :
    sid1 = sid2 ∧ rest1 = rest2 := by
  induction sid1 generalizing sid2 with
  | nil =>
    cases sid2 with
    | nil => simpa using h
    | cons b bs =>
      simp only [List.nil_append, List.cons_append, List.cons.injEq] at h
      have hb : b = '_' := h.1.symm
      subst hb
      exact absurd (List.mem_cons_self _ _) h2
  | cons a as ih =>
    cases sid2 with
    | nil =>
      simp only [List.cons_append, List.nil_append, List.cons.injEq] at h
      have ha : a = '_' := h.1
      subst ha
      exact absurd (List.mem_cons_self _ _) h1
    | cons b bs =>
      simp only [List.cons_append, List.cons.injEq] at h
      have h1' : '_' ∉ as := fun hm => h1 (List.mem_cons_of_mem a hm)
      have h2' : '_' ∉ bs := fun hm => h2 (List.mem_cons_of_mem b hm)
      obtain ⟨hs, hr⟩ := ih bs h1' h2' h.2
      exact ⟨by rw [h.1, hs], hr⟩

/-- Deciding whether a dictionary prefix-based deletion removed a key:
lookup after filtering commutes into a conditional. -/
theorem lookupSession_filter (p : Str → Bool) (k : Str)
    (l : List (Str × SessionEntry)) :
    lookupSession k (l.filter fun kv => !(p kv.1)) =
      if p k then none else lookupSession k l := by
  induction l with
  | nil => cases hp : p k <;> simp [lookupSession, hp]
  | cons kv rest ih =>
    rw [List.filter_cons]
    by_cases hk : kv.1 = k
    · cases hp : p k
      · have hkv : (!(p kv.1)) = true := by simp [hk, hp]
        rw [hkv]
        simp [lookupSession, hk, hp]
      · have hkv : (!(p kv.1)) = false := by simp [hk, hp]
        rw [hkv]
        simp [ih, hp]
    · cases hf : (!(p kv.1))
      · simp only [Bool.false_eq_true, if_false, ih]
        cases hp : p k
        · simp [lookupSession, hk, hp]
        · simp [hp]
      · cases hp : p k
        · simp [lookupSession, hk, hp, ih]
        · simp [lookupSession, hk, hp, ih]

/-- The prefix test used by `clear_history` agrees with equality of the
session-id component when neither string contains `'_'`. -/
theorem sepPref_iff (s sid mid : Str) (hs : '_' ∉ s) (hsid : '_' ∉ sid) :
    hasPref (s ++ ['_']) (session_key sid mid) = true ↔ s = sid := by
  constructor
  · intro h
    rw [hasPref_iff] at h
    obtain ⟨t, ht⟩ := h
    have heq : s ++ '_' :: t = sid ++ '_' :: mid := by
      simpa [List.append_assoc] using ht
    exact (sep_append_inj s t sid mid hs hsid heq).1
  · intro h
    subst h
    have : session_key s mid = (s ++ ['_']) ++ mid := by
      simp [session_key, List.append_assoc]
    rw [this]
    exact hasPref_self_append _ _

/-! ## Claim C1 -/

/-- Checker: does a `/models` result carry a non-empty model list? -/
def returnsNonEmptyModels (r : Nat × ModelsBody) : Bool :=
  match r.2 with
  | .ok l => !l.isEmpty
  | .err _ => false

/-- C1 counterexample: when the live enumeration throws, `get_models` does
not return any model list (there is no static fallback table in the code):
it returns a 500 error, refuting the claim at this concrete input. -/
theorem C1_counterexample :
    returnsNonEmptyModels
        (get_models true (Except.error ⟨"Exception".data, "boom".data⟩)) =
      false ∧
    (get_models true (Except.error ⟨"Exception".data, "boom".data⟩)).1 =
      500 := by
  constructor <;> rfl

/-- C1 (amended): for every outcome where the gateway is unconfigured, the
live enumeration throws, or the filtered catalog is empty, `get_models`
returns status 500 with no model list — it never falls back to a static
table. -/
theorem C1_amended (cfg : Bool) (enum : Except PyExn (List GwModel))
    (h : cfg = false ∨ (∃ e, enum = Except.error e) ∨
      ∃ ms, enum = Except.ok ms ∧ buildAvailable [] ms = []) :
    (get_models cfg enum).1 = 500 ∧
      returnsNonEmptyModels (get_models cfg enum) = false := by
  rcases h with h | ⟨e, rfl⟩ | ⟨ms, rfl, hms⟩
  · subst h; exact ⟨rfl, rfl⟩
  · cases cfg <;> exact ⟨rfl, rfl⟩
  · cases cfg
    · exact ⟨rfl, rfl⟩
    · simp [get_models, hms, returnsNonEmptyModels]

/-- Witness for C1 (amended) at a concrete unconfigured input. -/
theorem C1_amended_witness :
    (get_models false (Except.ok [])).1 = 500 ∧
      returnsNonEmptyModels (get_models false (Except.ok [])) = false :=
  C1_amended false (Except.ok []) (Or.inl rfl)

/-! ## Claim C2 -/

/-- C2 counterexample: the registry key is built by string interpolation
with `'_'`, so the two distinct pairs `("a_b", "c")` and `("a", "b_c")`
collide on the same key `"a_b_c"`. -/
theorem C2_counterexample :
    session_key "a_b".data "c".data = session_key "a".data "b_c".data ∧
      ¬("a_b".data = "a".data ∧ "c".data = "b_c".data) := by
  constructor
  · rfl
  · intro h
    exact absurd h.1 (by decide)

/-- C2 (amended): for a fixed clientSessionId, distinct modelIds always get
distinct registry keys; and two distinct pairs get distinct keys whenever
the clientSessionIds contain no underscore (the separator character). -/
theorem C2_amended :
    (∀ sid mid1 mid2 : Str,
        session_key sid mid1 = session_key sid mid2 → mid1 = mid2) ∧
      ∀ sid1 mid1 sid2 mid2 : Str, '_' ∉ sid1 → '_' ∉ sid2 →
        session_key sid1 mid1 = session_key sid2 mid2 →
          sid1 = sid2 ∧ mid1 = mid2 := by
  constructor
  · intro sid mid1 mid2 h
    have := (List.append_right_inj sid).mp h
    exact (List.cons.injEq _ _ _ _).mp this |>.2
  · intro sid1 mid1 sid2 mid2 h1 h2 h
    exact sep_append_inj sid1 mid1 sid2 mid2 h1 h2 h

/-- Witness for C2 (amended) at concrete underscore-free inputs. -/
theorem C2_amended_witness :
    ("m1".data : Str) = "m1".data ∧
      ("u1".data : Str) = "u1".data ∧ ("mA".data : Str) = "mA".data := by
  refine ⟨C2_amended.1 "u1".data "m1".data "m1".data rfl, ?_, ?_⟩
  · exact (C2_amended.2 "u1".data "mA".data "u1".data "mA".data
      (by decide) (by decide) rfl).1
  · exact (C2_amended.2 "u1".data "mA".data "u1".data "mA".data
      (by decide) (by decide) rfl).2

/-! ## Claim C3 -/

/-- Registry state holding one entry created for the pair
`("u1_x", "m")`. -/
def c3State : ServerState :=
  ⟨[(session_key "u1_x".data "m".data, ⟨0, true, false⟩)], 1⟩

/-- C3 counterexample: clearing session `"u1"` also removes the entry that
was created for the pair `("u1_x", "m")`, whose clientSessionId component
`"u1_x"` differs from `"u1"` — deletion matches on a raw string prefix, not
on the clientSessionId component. -/
theorem C3_counterexample :
    lookupSession (session_key "u1_x".data "m".data)
        (clear_history c3State "u1".data).state.chat_sessions = none ∧
      ("u1_x".data : Str) ≠ "u1".data := by
  constructor
  · rfl
  · decide

/-- C3 (amended): `clear_history s` always succeeds with status 200 and
removes exactly the registry entries whose key starts with `s ++ "_"`; when
both session ids are underscore-free this coincides with removing exactly
the entries whose clientSessionId component equals `s`, leaving all other
entries unchanged (a no-op when nothing matches). -/
theorem C3_amended (st : ServerState) (s : Str) :
    (clear_history st s).status = 200 ∧
      (∀ k, lookupSession k (clear_history st s).state.chat_sessions =
        if hasPref (s ++ ['_']) k then none
        else lookupSession k st.chat_sessions) ∧
      ∀ sid mid : Str, '_' ∉ s → '_' ∉ sid →
        lookupSession (session_key sid mid)
            (clear_history st s).state.chat_sessions =
          if sid = s then none
          else lookupSession (session_key sid mid) st.chat_sessions := by
  refine ⟨rfl, ?_, ?_⟩
  · intro k
    exact lookupSession_filter (fun k => hasPref (s ++ ['_']) k) k
      st.chat_sessions
  · intro sid mid hs hsid
    show lookupSession (session_key sid mid)
        (st.chat_sessions.filter fun kv => !(hasPref (s ++ ['_']) kv.1)) = _
    rw [lookupSession_filter (fun k => hasPref (s ++ ['_']) k)
      (session_key sid mid) st.chat_sessions]
    by_cases h : sid = s
    · rw [if_pos ((sepPref_iff s sid mid hs hsid).mpr h.symm), if_pos h]
    · rw [if_neg h, if_neg ?_]
      intro hp
      exact h ((sepPref_iff s sid mid hs hsid).mp hp).symm

/-- Witness for C3 (amended) at a concrete state and session id. -/
theorem C3_amended_witness :
    (clear_history c3State "u2".data).status = 200 ∧
      lookupSession (session_key "u1".data "m".data)
          (clear_history c3State "u2".data).state.chat_sessions =
        (if ("u1".data : Str) = "u2".data then none
          else lookupSession (session_key "u1".data "m".data)
            c3State.chat_sessions) := by
  refine ⟨(C3_amended c3State "u2".data).1, ?_⟩
  exact (C3_amended c3State "u2".data).2.2 "u1".data "m".data
    (by decide) (by decide)

/-! ## Claim C7 -/

/-- C7 (confirmed): an empty message is rejected with status 400 and the
fixed error body, for every configuration, registry state, session id,
model id and gateway behaviour, with the registry unchanged and no gateway
call issued. -/
theorem C7_confirmed (apiKeyConfigured : Bool) (st : ServerState)
    (session_id model_id : Str) (enum : Except PyExn (List GwModel))
    (sysSend : Except PyExn Unit) (userSend : Except PyExn Response) :
    chat apiKeyConfigured st [] session_id model_id enum sysSend userSend =
      ⟨400, .err emptyMsgErr, st, []⟩ := rfl

/-! ## Claim C8 -/

/-- C8 (confirmed): with a non-empty message and no gateway credential
configured, the handler returns status 500 with an error body, the registry
is unchanged and no gateway call is issued. -/
theorem C8_confirmed (st : ServerState)
    (user_message session_id model_id : Str) (h : user_message ≠ [])
    (enum : Except PyExn (List GwModel)) (sysSend : Except PyExn Unit)
    (userSend : Except PyExn Response) :
    chat false st user_message session_id model_id enum sysSend userSend =
      ⟨500, .err keyMissingMsg, st, []⟩ := by
  cases user_message with
  | nil => exact absurd rfl h
  | cons a as => rfl

/-! ## Machinery for C4 and C9 -/

theorem lookupSession_append_none (k : Str) (l : List (Str × SessionEntry))
    (e : SessionEntry) (h : lookupSession k l = none) :
    lookupSession k (l ++ [(k, e)]) = some e := by
  induction l with
  | nil => simp [lookupSession]
  | cons kv rest ih =>
    by_cases hk : kv.1 = k
    · rw [lookupSession, if_pos hk] at h
      exact absurd h (by simp)
    · rw [lookupSession, if_neg hk] at h
      rw [List.cons_append, lookupSession, if_neg hk]
      exact ih h

theorem lookupSession_update_self (k : Str) (f : SessionEntry → SessionEntry)
    (l : List (Str × SessionEntry)) :
    lookupSession k (updateSession k f l) = (lookupSession k l).map f := by
  induction l with
  | nil => simp [lookupSession, updateSession]
  | cons kv rest ih =>
    by_cases hk : kv.1 = k
    · rw [updateSession, if_pos hk, lookupSession, lookupSession,
        if_pos hk, if_pos hk]
      rfl
    · rw [updateSession, if_neg hk, lookupSession, lookupSession,
        if_neg hk, if_neg hk]
      exact ih

theorem chatWithEntry_state (umsg sid mid : Str) (st1 : ServerState)
    (key : Str) (entry : SessionEntry) (ev1 : List GwEvent)
    (user : Except PyExn Response) :
    (chatWithEntry umsg sid mid st1 key entry ev1 user).state =
      if entry.initialized then st1
      else ServerState.mk (updateSession key setInitialized st1.chat_sessions)
        st1.nextHandle := by
  unfold chatWithEntry
  cases user <;> rfl

theorem chatWithEntry_events (umsg sid mid : Str) (st1 : ServerState)
    (key : Str) (entry : SessionEntry) (ev1 : List GwEvent)
    (user : Except PyExn Response) :
    (chatWithEntry umsg sid mid st1 key entry ev1 user).events =
      [GwEvent.listModels] ++ ev1 ++
        (if entry.initialized then []
          else [GwEvent.sendSystemInstruction entry.chat SYSTEM_INSTRUCTION]) ++
        [GwEvent.sendUserMessage entry.chat umsg] := by
  unfold chatWithEntry
  cases user <;> rfl

/-- With a non-empty message, a configured key and a model id passing
validation, the handler reduces to the session lookup-or-create step. -/
theorem chat_valid_eq (st : ServerState) (msg sid mid : Str)
    (ms : List GwModel) (sys : Except PyExn Unit)
    (user : Except PyExn Response) (h : msg ≠ [])
    (hv : (availableForChat ms).contains mid = true) :
    chat true st msg sid mid (Except.ok ms) sys user =
      match lookupSession (session_key sid mid) st.chat_sessions with
      | some entry =>
          chatWithEntry msg sid mid st (session_key sid mid) entry [] user
      | none =>
          chatWithEntry msg sid mid
            ⟨st.chat_sessions ++
              [(session_key sid mid,
                ⟨st.nextHandle, false, isImageModel mid⟩)],
              st.nextHandle + 1⟩
            (session_key sid mid) ⟨st.nextHandle, false, isImageModel mid⟩
            [GwEvent.createChat mid (isImageModel mid) st.nextHandle]
            user := by
  cases msg with
  | nil => exact absurd rfl h
  | cons a as =>
    unfold chat
    simp only [List.isEmpty_cons, Bool.false_eq_true, if_false, Bool.not_true,
      hv]

/-- After any chat call that passes validation, the registry holds an
initialized entry under the request's key: the looked-up entry with its
flag raised, or a fresh one built on the current handle counter. -/
theorem chat_entry_after (st : ServerState) (msg sid mid : Str)
    (ms : List GwModel) (sys : Except PyExn Unit)
    (user : Except PyExn Response) (h : msg ≠ [])
    (hv : (availableForChat ms).contains mid = true) :
    lookupSession (session_key sid mid)
        (chat true st msg sid mid (Except.ok ms) sys user).state.chat_sessions =
      some (match lookupSession (session_key sid mid) st.chat_sessions with
        | some e => setInitialized e
        | none => ⟨st.nextHandle, true, isImageModel mid⟩) := by
  rw [chat_valid_eq st msg sid mid ms sys user h hv]
  cases hlk : lookupSession (session_key sid mid) st.chat_sessions with
  | some e =>
    obtain ⟨c, i, g⟩ := e
    rw [chatWithEntry_state]
    cases i
    · simp [lookupSession_update_self, hlk, setInitialized]
    · simp [hlk, setInitialized]
  | none =>
    rw [chatWithEntry_state]
    simp [lookupSession_update_self, lookupSession_append_none _ _ _ hlk,
      setInitialized]

/-- Boolean recognizer of conversation-creation events. -/
def isCreateEvent : GwEvent → Bool
  | .createChat _ _ _ => true
  | _ => false

/-- Boolean recognizer of system-instruction sends. -/
def isSysSendEvent : GwEvent → Bool
  | .sendSystemInstruction _ _ => true
  | _ => false

/-- Number of system-instruction sends in a trace. -/
def countSysSends (evs : List GwEvent) : Nat := evs.countP isSysSendEvent

/-- Two consecutive chat calls for the same (session, model) pair, with no
intervening eviction: the second call starts from the first call's
state. -/
def chatTwice (st : ServerState) (sid mid msg1 msg2 : Str)
    (ms1 ms2 : List GwModel) (sys1 sys2 : Except PyExn Unit)
    (user1 user2 : Except PyExn Response) : ChatOutcome × ChatOutcome :=
  let o1 := chat true st msg1 sid mid (Except.ok ms1) sys1 user1
  (o1, chat true o1.state msg2 sid mid (Except.ok ms2) sys2 user2)

/-! ## Claim C4 -/

/-- C4 (confirmed): for a fixed (clientSessionId, modelId), across two
consecutive chat calls with no intervening eviction, the second call leaves
the state untouched and creates no conversation handle (it reuses the entry
left by the first call, whose initialized flag is true whatever the outcome
of the system-instruction send), the system instruction is sent at most
once across the pair, and the outcome of the system-instruction send never
influences the result of the call. -/
theorem C4_confirmed (st : ServerState) (sid mid msg1 msg2 : Str)
    (ms1 ms2 : List GwModel) (sys1 sys2 : Except PyExn Unit)
    (user1 user2 : Except PyExn Response)
    (h1 : msg1 ≠ []) (h2 : msg2 ≠ [])
    (hv1 : (availableForChat ms1).contains mid = true)
    (hv2 : (availableForChat ms2).contains mid = true) :
    (chatTwice st sid mid msg1 msg2 ms1 ms2 sys1 sys2 user1 user2).2.state =
        (chatTwice st sid mid msg1 msg2 ms1 ms2 sys1 sys2 user1
          user2).1.state ∧
      (chatTwice st sid mid msg1 msg2 ms1 ms2 sys1 sys2 user1
          user2).2.events.filter isCreateEvent = [] ∧
      (lookupSession (session_key sid mid)
          (chatTwice st sid mid msg1 msg2 ms1 ms2 sys1 sys2 user1
            user2).1.state.chat_sessions).map SessionEntry.initialized =
        some true ∧
      countSysSends
          (chatTwice st sid mid msg1 msg2 ms1 ms2 sys1 sys2 user1
            user2).1.events +
        countSysSends
          (chatTwice st sid mid msg1 msg2 ms1 ms2 sys1 sys2 user1
            user2).2.events ≤ 1 ∧
      chat true st msg1 sid mid (Except.ok ms1) sys1 user1 =
        chat true st msg1 sid mid (Except.ok ms1) (Except.ok ()) user1 := by
  have h3 : (lookupSession (session_key sid mid)
      (chat true st msg1 sid mid (Except.ok ms1) sys1
        user1).state.chat_sessions).map SessionEntry.initialized =
      some true := by
    rw [chat_entry_after st msg1 sid mid ms1 sys1 user1 h1 hv1]
    cases lookupSession (session_key sid mid) st.chat_sessions with
    | none => rfl
    | some e => rfl
  obtain ⟨e1, he1, hi1⟩ : ∃ e, lookupSession (session_key sid mid)
      (chat true st msg1 sid mid (Except.ok ms1) sys1
        user1).state.chat_sessions = some e ∧ e.initialized = true := by
    cases hlk : lookupSession (session_key sid mid)
        (chat true st msg1 sid mid (Except.ok ms1) sys1
          user1).state.chat_sessions with
    | none => rw [hlk] at h3; simp at h3
    | some e =>
      rw [hlk] at h3
      simp only [Option.map_some', Option.some.injEq] at h3
      exact ⟨e, rfl, h3⟩
  have hsecond : chat true
      (chat true st msg1 sid mid (Except.ok ms1) sys1 user1).state
      msg2 sid mid (Except.ok ms2) sys2 user2 =
      chatWithEntry msg2 sid mid
        (chat true st msg1 sid mid (Except.ok ms1) sys1 user1).state
        (session_key sid mid) e1 [] user2 := by
    rw [chat_valid_eq _ msg2 sid mid ms2 sys2 user2 h2 hv2, he1]
  refine ⟨?_, ?_, h3, ?_, rfl⟩
  · show (chat true
        (chat true st msg1 sid mid (Except.ok ms1) sys1 user1).state
        msg2 sid mid (Except.ok ms2) sys2 user2).state =
      (chat true st msg1 sid mid (Except.ok ms1) sys1 user1).state
    rw [hsecond, chatWithEntry_state, if_pos hi1]
  · show (chat true
        (chat true st msg1 sid mid (Except.ok ms1) sys1 user1).state
        msg2 sid mid (Except.ok ms2) sys2 user2).events.filter isCreateEvent =
      []
    rw [hsecond, chatWithEntry_events, if_pos hi1]
    simp [isCreateEvent]
  · show countSysSends
        (chat true st msg1 sid mid (Except.ok ms1) sys1 user1).events +
      countSysSends (chat true
        (chat true st msg1 sid mid (Except.ok ms1) sys1 user1).state
        msg2 sid mid (Except.ok ms2) sys2 user2).events ≤ 1
    have hc2 : countSysSends (chat true
        (chat true st msg1 sid mid (Except.ok ms1) sys1 user1).state
        msg2 sid mid (Except.ok ms2) sys2 user2).events = 0 := by
      rw [hsecond, chatWithEntry_events, if_pos hi1]
      simp [countSysSends, isSysSendEvent]
    have hc1 : countSysSends
        (chat true st msg1 sid mid (Except.ok ms1) sys1 user1).events ≤ 1 := by
      rw [chat_valid_eq st msg1 sid mid ms1 sys1 user1 h1 hv1]
      cases hlk : lookupSession (session_key sid mid) st.chat_sessions with
      | some e =>
        rw [chatWithEntry_events]
        cases he : e.initialized <;>
          simp [countSysSends, isSysSendEvent, List.countP_append,
            List.countP_cons]
      | none =>
        rw [chatWithEntry_events]
        simp [countSysSends, isSysSendEvent, List.countP_append,
          List.countP_cons]
    omega

/-- Initial state, model table and response used by the concrete C4 run. -/
def c4St : ServerState := ⟨[], 0⟩

/-- Concrete model table for the C4 witness. -/
def c4Ms : List GwModel := [⟨"gemini-x".data, none, []⟩]

/-- Concrete gateway response for the C4 witness. -/
def c4Resp : Response := ⟨none, some (some "hi".data)⟩

/-- The two concrete consecutive calls of the C4 witness. -/
def c4Pair : ChatOutcome × ChatOutcome :=
  chatTwice c4St "u1".data "gemini-x".data "hello".data "again".data
    c4Ms c4Ms (Except.ok ()) (Except.ok ())
    (Except.ok c4Resp) (Except.ok c4Resp)

/-- Witness for C4 at a concrete pair of calls. -/
theorem C4_confirmed_witness :
    c4Pair.2.state = c4Pair.1.state ∧
      c4Pair.2.events.filter isCreateEvent = [] ∧
      (lookupSession (session_key "u1".data "gemini-x".data)
          c4Pair.1.state.chat_sessions).map SessionEntry.initialized =
        some true ∧
      countSysSends c4Pair.1.events + countSysSends c4Pair.2.events ≤ 1 ∧
      chat true c4St "hello".data "u1".data "gemini-x".data
          (Except.ok c4Ms) (Except.ok ()) (Except.ok c4Resp) =
        chat true c4St "hello".data "u1".data "gemini-x".data
          (Except.ok c4Ms) (Except.ok ()) (Except.ok c4Resp) :=
  C4_confirmed c4St "u1".data "gemini-x".data "hello".data "again".data
    c4Ms c4Ms (Except.ok ()) (Except.ok ())
    (Except.ok c4Resp) (Except.ok c4Resp)
    (by decide) (by decide) (by decide) (by decide)

/-! ## Claim C9 -/

/-- C9 (confirmed): after clearing a session id, a chat call for the same
session id (any model) finds no registry entry, opens exactly one new
conversation handle whose id was used by no entry before the clear, sends
the system instruction (the fresh entry starts uninitialized), and the
resulting entry holds the new handle. -/
theorem C9_confirmed (st : ServerState) (s mid msg : Str)
    (ms : List GwModel) (sys : Except PyExn Unit)
    (user : Except PyExn Response)
    (h : msg ≠ []) (hv : (availableForChat ms).contains mid = true)
    (hb : st.chat_sessions.all
      (fun kv => decide (kv.2.chat < st.nextHandle)) = true) :
    lookupSession (session_key s mid)
        (clear_history st s).state.chat_sessions = none ∧
      st.nextHandle ∉ (st.chat_sessions.map fun kv => kv.2.chat) ∧
      (chat true (clear_history st s).state msg s mid (Except.ok ms) sys
          user).events.filter isCreateEvent =
        [GwEvent.createChat mid (isImageModel mid) st.nextHandle] ∧
      countSysSends (chat true (clear_history st s).state msg s mid
          (Except.ok ms) sys user).events = 1 ∧
      (lookupSession (session_key s mid)
          (chat true (clear_history st s).state msg s mid (Except.ok ms) sys
            user).state.chat_sessions).map SessionEntry.chat =
        some st.nextHandle := by
  have hkeyPref : hasPref (s ++ ['_']) (session_key s mid) = true := by
    have e : session_key s mid = (s ++ ['_']) ++ mid := by
      simp [session_key, List.append_assoc]
    rw [e]
    exact hasPref_self_append _ _
  have hclear : lookupSession (session_key s mid)
      (clear_history st s).state.chat_sessions = none := by
    show lookupSession (session_key s mid)
      (st.chat_sessions.filter
        fun kv => !(hasPref (s ++ ['_']) kv.1)) = none
    rw [lookupSession_filter (fun k => hasPref (s ++ ['_']) k), if_pos hkeyPref]
  have hfresh : st.nextHandle ∉ (st.chat_sessions.map fun kv => kv.2.chat) := by
    intro hmem
    obtain ⟨kv, hkv, heq⟩ := List.mem_map.mp hmem
    have hlt := List.all_eq_true.mp hb kv hkv
    have hlt' : kv.2.chat < st.nextHandle := of_decide_eq_true hlt
    rw [heq] at hlt'
    exact Nat.lt_irrefl _ hlt'
  have hchat : chat true (clear_history st s).state msg s mid (Except.ok ms)
      sys user =
      chatWithEntry msg s mid
        ⟨(clear_history st s).state.chat_sessions ++
          [(session_key s mid, ⟨st.nextHandle, false, isImageModel mid⟩)],
          st.nextHandle + 1⟩
        (session_key s mid) ⟨st.nextHandle, false, isImageModel mid⟩
        [GwEvent.createChat mid (isImageModel mid) st.nextHandle] user := by
    rw [chat_valid_eq _ msg s mid ms sys user h hv, hclear]
    rfl
  have h5 := chat_entry_after (clear_history st s).state msg s mid ms sys
    user h hv
  rw [hclear] at h5
  refine ⟨hclear, hfresh, ?_, ?_, ?_⟩
  · rw [hchat, chatWithEntry_events]
    simp [isCreateEvent]
  · rw [hchat, chatWithEntry_events]
    simp [countSysSends, isSysSendEvent, List.countP_append, List.countP_cons]
  · rw [h5]
    rfl

/-- Initial state for the concrete C9 run: one existing entry under session
`"u1"`, handle counter at 1. -/
def c9St : ServerState :=
  ⟨[(session_key "u1".data "gemini-x".data, ⟨0, true, false⟩)], 1⟩

/-- Witness for C9 at a concrete clear-then-chat run. -/
theorem C9_confirmed_witness :
    lookupSession (session_key "u1".data "gemini-x".data)
        (clear_history c9St "u1".data).state.chat_sessions = none ∧
      c9St.nextHandle ∉ (c9St.chat_sessions.map fun kv => kv.2.chat) ∧
      (chat true (clear_history c9St "u1".data).state "hello".data "u1".data
          "gemini-x".data (Except.ok c4Ms) (Except.ok ())
          (Except.ok c4Resp)).events.filter isCreateEvent =
        [GwEvent.createChat "gemini-x".data
          (isImageModel "gemini-x".data) c9St.nextHandle] ∧
      countSysSends (chat true (clear_history c9St "u1".data).state
          "hello".data "u1".data "gemini-x".data (Except.ok c4Ms)
          (Except.ok ()) (Except.ok c4Resp)).events = 1 ∧
      (lookupSession (session_key "u1".data "gemini-x".data)
          (chat true (clear_history c9St "u1".data).state "hello".data
            "u1".data "gemini-x".data (Except.ok c4Ms) (Except.ok ())
            (Except.ok c4Resp)).state.chat_sessions).map SessionEntry.chat =
        some c9St.nextHandle :=
  C9_confirmed c9St "u1".data "gemini-x".data "hello".data c4Ms
    (Except.ok ()) (Except.ok c4Resp)
    (by decide) (by decide) (by decide)

/-- Witness for C8 at a concrete request. -/
theorem C8_confirmed_witness :
    chat false ⟨[], 0⟩ "hi".data "u1".data "gemini-x".data
        (Except.ok []) (Except.ok ()) (Except.ok ⟨none, none⟩) =
      ⟨500, .err keyMissingMsg, ⟨[], 0⟩, []⟩ :=
  C8_confirmed ⟨[], 0⟩ "hi".data "u1".data "gemini-x".data
    (by decide) (Except.ok []) (Except.ok ()) (Except.ok ⟨none, none⟩)

/-! ## Claim C6 -/

/-- Text contributed by a part (empty when the attribute is absent). -/
def partText (p : Part) : Str :=
  match p.text with
  | some t => t
  | none => []

/-- Data URI contributed by a part: present exactly for an inline part with
a non-empty payload. -/
def partImage (p : Part) : Option Str :=
  match p.inline_data with
  | some d => if d.data.isEmpty then none else some (dataURI d)
  | none => none

/-- Declarative text extraction: concatenation over the non-thought
parts. -/
def specText (ps : List Part) : Str :=
  ((ps.filter fun p => !p.thought).map partText).flatten

/-- Declarative image extraction: one data URI per non-thought inline part
with non-empty payload, in order. -/
def specImages (ps : List Part) : List Str :=
  (ps.filter fun p => !p.thought).filterMap partImage

/-- Declarative description of the decomposition, as amended: the fallback
to the plain text field happens exactly when the parts pass produced no
text and no images and the response has a text attribute. -/
def specExtract (r : Response) : Str × List Str :=
  let ps := match partsOrNone r with
    | some ps => ps
    | none => []
  let t := specText ps
  let imgs := specImages ps
  if t.isEmpty && imgs.isEmpty then
    ((match r.text with
      | some t0 => t0.getD []
      | none => t), imgs)
  else (t, imgs)

/-- Extraction as the claim words it: decompose the parts whenever the
parts API is exposed, and fall back to the plain text field exactly when it
is not. -/
def claimedExtract (r : Response) : Str × List Str :=
  match r.parts with
  | some ps => (specText ps, specImages ps)
  | none =>
      ((match r.text with
        | some t => t.getD []
        | none => []), [])

theorem text_step (p : Part) (text : Str) :
    (match p.text with
      | some t => if t.isEmpty then text else text ++ t
      | none => text) = text ++ partText p := by
  cases htx : p.text with
  | none => simp [partText, htx]
  | some t =>
    cases t with
    | nil => simp [partText, htx]
    | cons c cs => simp [partText, htx]

theorem image_step (p : Part) (imgs : List Str) :
    (match p.inline_data with
      | some d => if d.data.isEmpty then imgs else imgs ++ [dataURI d]
      | none => imgs) = imgs ++ (partImage p).toList := by
  cases hid : p.inline_data with
  | none => simp [partImage, hid]
  | some d => cases hd : d.data.isEmpty <;> simp [partImage, hid, hd]

theorem specText_cons_false (p : Part) (rest : List Part)
    (ht : p.thought = false) :
    specText (p :: rest) = partText p ++ specText rest := by
  simp [specText, List.filter_cons, ht]

theorem specText_cons_true (p : Part) (rest : List Part)
    (ht : p.thought = true) : specText (p :: rest) = specText rest := by
  simp [specText, List.filter_cons, ht]

theorem specImages_cons_false (p : Part) (rest : List Part)
    (ht : p.thought = false) :
    specImages (p :: rest) = (partImage p).toList ++ specImages rest := by
  simp only [specImages, List.filter_cons, ht, Bool.not_false, if_true]
  cases hpi : partImage p <;> simp [List.filterMap_cons, hpi]

theorem specImages_cons_true (p : Part) (rest : List Part)
    (ht : p.thought = true) : specImages (p :: rest) = specImages rest := by
  simp [specImages, List.filter_cons, ht]

/-- The imperative extraction loop computes the declarative text and image
extractions, relative to its accumulators. -/
theorem extractLoop_eq (ps : List Part) (text : Str) (imgs : List Str) :
    extractLoop ps text imgs =
      (text ++ specText ps, imgs ++ specImages ps) := by
  induction ps generalizing text imgs with
  | nil => simp [extractLoop, specText, specImages]
  | cons p rest ih =>
    cases ht : p.thought
    · simp only [extractLoop, ht, Bool.false_eq_true, if_false]
      rw [ih, text_step, image_step, specText_cons_false p rest ht,
        specImages_cons_false p rest ht]
      simp [List.append_assoc]
    · simp only [extractLoop, ht, if_true]
      rw [ih, specText_cons_true p rest ht, specImages_cons_true p rest ht]

/-- Thought-only parts list with a plain text field: the claim predicts no
fallback (parts API exposed), the code falls back. -/
def c6Resp : Response :=
  ⟨some [⟨true, some "x".data, none⟩], some (some "hello".data)⟩

/-- C6 counterexample: for a response whose parts are all thoughts and
whose plain text field is `"hello"`, the code returns `"hello"` (the
fallback fires although the parts API is exposed), while the claim's
reading returns the empty concatenation. -/
theorem C6_counterexample :
    extractResponse c6Resp = ("hello".data, []) ∧
      claimedExtract c6Resp = ([], []) ∧
      extractResponse c6Resp ≠ claimedExtract c6Resp := by
  refine ⟨rfl, rfl, ?_⟩
  decide

/-- C6 (amended): the handler returns the concatenated text of all
non-thought parts and one data URI per non-thought inline binary part with
a non-empty payload (mime type defaulting to image/png), and it falls back
to the plain text field exactly when that pass produced no text and no
images and the response exposes a text field — also when the parts API is
exposed but contributed nothing. -/
theorem C6_amended (r : Response) : extractResponse r = specExtract r := by
  unfold extractResponse specExtract
  cases hp : partsOrNone r with
  | none => cases htx : r.text <;> simp [specText, specImages, htx]
  | some ps =>
    simp only [extractLoop_eq, List.nil_append]
    cases htx : r.text <;> simp [htx]

/-! ## Claim C10 -/

/-- Identifier list of a `/models` result (empty on error). -/
def modelIds (r : Nat × ModelsBody) : List Str :=
  match r.2 with
  | .ok l => l.map ModelDescriptor.id
  | .err _ => []

/-- Enumeration containing a supported gemini model and a nano model whose
capability metadata lists no generation method. -/
def c10Ms : List GwModel :=
  [⟨"gemini-ok".data, none, []⟩,
    ⟨"nano-banana".data, none, ["countTokens".data]⟩]

/-- C10 counterexample: `"nano-banana"` is enumerated, contains `nano` and
not `gemini`, yet GET /models omits it (it fails the generation-support
filter), refuting the claim's universal inclusion. -/
theorem C10_counterexample :
    substr "nano".data (lowerStr "nano-banana".data) = true ∧
      substr "gemini".data (lowerStr "nano-banana".data) = false ∧
      "nano-banana".data ∈ (c10Ms.map fun m => lastComponent m.name) ∧
      "nano-banana".data ∉ modelIds (get_models true (Except.ok c10Ms)) := by
  refine ⟨rfl, rfl, by decide, by decide⟩

theorem mem_insertLe (x y : ModelDescriptor) (l : List ModelDescriptor) :
    y ∈ insertLe x l ↔ y = x ∨ y ∈ l := by
  induction l with
  | nil => simp [insertLe]
  | cons z zs ih =>
    by_cases hle : modelLe x z = true
    · simp [insertLe, hle, List.mem_cons]
    · simp only [insertLe, hle, Bool.false_eq_true, if_false, List.mem_cons,
        ih]
      tauto

theorem mem_sortModels (y : ModelDescriptor) (l : List ModelDescriptor) :
    y ∈ sortModels l ↔ y ∈ l := by
  induction l with
  | nil => simp [sortModels]
  | cons x xs ih => simp [sortModels, mem_insertLe, ih, List.mem_cons]

/-- Catalog membership: a name that passes the family filter, occurs among
the enumerated models, always passes the generation-support filter where it
occurs, and is not yet seen, appears in the built catalog. -/
theorem buildAvailable_mem (ms : List GwModel) (n : Str) (seen : List Str)
    (hseen : ¬ seen.contains n = true)
    (hmem : ∃ m ∈ ms, lastComponent m.name = n)
    (hall : ∀ m ∈ ms, lastComponent m.name = n →
      generationSupported m.supported_generation_methods = true)
    (hfam : familyFilter n = true) :
    n ∈ (buildAvailable seen ms).map ModelDescriptor.id := by
  induction ms generalizing seen with
  | nil =>
    obtain ⟨m, hm, _⟩ := hmem
    exact absurd hm (List.not_mem_nil m)
  | cons m rest ih =>
    by_cases hn : lastComponent m.name = n
    · have hsup := hall m (List.mem_cons_self m rest) hn
      have hcontains : seen.contains n = false := by
        cases hcs : seen.contains n
        · rfl
        · exact absurd hcs hseen
      simp only [buildAvailable, hn, hfam, if_true, hcontains,
        Bool.false_eq_true, if_false, hsup, List.map_cons]
      exact List.mem_cons_self n _
    · have hmem' : ∃ m' ∈ rest, lastComponent m'.name = n := by
        obtain ⟨m', hm', he'⟩ := hmem
        cases List.mem_cons.mp hm' with
        | inl hh => exact absurd (hh ▸ he') hn
        | inr hh => exact ⟨m', hh, he'⟩
      have hall' : ∀ m' ∈ rest, lastComponent m'.name = n →
          generationSupported m'.supported_generation_methods = true :=
        fun m' hm' he' => hall m' (List.mem_cons_of_mem m hm') he'
      have hseen' : ¬ ((lastComponent m.name :: seen).contains n) = true := by
        intro hcc
        have hmm : n ∈ lastComponent m.name :: seen := List.elem_iff.mp hcc
        cases List.mem_cons.mp hmm with
        | inl hh => exact hn hh.symm
        | inr hh => exact hseen (List.elem_iff.mpr hh)
      simp only [buildAvailable]
      cases hf : familyFilter (lastComponent m.name)
      · simp only [Bool.false_eq_true, if_false]
        exact ih seen hseen hmem' hall'
      · simp only [if_true]
        cases hc : seen.contains (lastComponent m.name)
        · simp only [Bool.false_eq_true, if_false]
          cases hs : generationSupported m.supported_generation_methods
          · simp only [Bool.false_eq_true, if_false]
            exact ih (lastComponent m.name :: seen) hseen' hmem' hall'
          · simp only [if_true, List.map_cons]
            exact List.mem_cons_of_mem _
              (ih (lastComponent m.name :: seen) hseen' hmem' hall')
        · simp only [if_true]
          exact ih seen hseen hmem' hall'

/-- C10 (amended): a gateway-enumerated name containing `nano` but not
`gemini`, every enumerated occurrence of which passes the
generation-support filter, is listed by GET /models, yet POST /chat
rejects that very identifier with status 400 and an unavailable-model
error, leaving the registry untouched — the chat validation filters on the
`gemini` substring only. -/
theorem C10_amended (ms : List GwModel) (n : Str)
    (hmem : ∃ m ∈ ms, lastComponent m.name = n)
    (hall : ∀ m ∈ ms, lastComponent m.name = n →
      generationSupported m.supported_generation_methods = true)
    (hnano : substr "nano".data (lowerStr n) = true)
    (hgem : substr "gemini".data (lowerStr n) = false)
    (st : ServerState) (sid msg : Str) (hmsg : msg ≠ [])
    (sys : Except PyExn Unit) (user : Except PyExn Response) :
    n ∈ modelIds (get_models true (Except.ok ms)) ∧
      chat true st msg sid n (Except.ok ms) sys user =
        ⟨400, .err (unavailableModelMsg n), st, [GwEvent.listModels]⟩ := by
  have hfam : familyFilter n = true := by
    simp [familyFilter, hnano, hgem]
  have hbuild := buildAvailable_mem ms n [] (by simp) hmem hall hfam
  have hne : (buildAvailable [] ms).isEmpty = false := by
    cases hje : buildAvailable [] ms with
    | nil => rw [hje] at hbuild; simp at hbuild
    | cons a l => rfl
  constructor
  · show n ∈ modelIds (get_models true (Except.ok ms))
    unfold get_models
    simp only [Bool.not_true, Bool.false_eq_true, if_false, hne]
    show n ∈ (sortModels (buildAvailable [] ms)).map ModelDescriptor.id
    obtain ⟨d, hd, hdn⟩ := List.mem_map.mp hbuild
    exact List.mem_map.mpr ⟨d, (mem_sortModels d _).mpr hd, hdn⟩
  · have hchatv : (availableForChat ms).contains n = false := by
      cases hcc : (availableForChat ms).contains n
      · rfl
      · exfalso
        have hmm : n ∈ availableForChat ms := List.elem_iff.mp hcc
        have hsub := (List.mem_filter.mp hmm).2
        rw [hgem] at hsub
        exact Bool.false_ne_true hsub
    cases msg with
    | nil => exact absurd rfl hmsg
    | cons a as =>
      unfold chat
      simp only [List.isEmpty_cons, Bool.false_eq_true, if_false,
        Bool.not_true, hchatv, Bool.not_false, if_true]

/-- Supported nano-only enumeration for the C10 witness. -/
def c10WMs : List GwModel := [⟨"nano-banana".data, none, []⟩]

/-- Witness for C10 (amended) at a concrete enumeration and request. -/
theorem C10_amended_witness :
    "nano-banana".data ∈ modelIds (get_models true (Except.ok c10WMs)) ∧
      chat true ⟨[], 0⟩ "hi".data "u1".data "nano-banana".data
          (Except.ok c10WMs) (Except.ok ()) (Except.ok ⟨none, none⟩) =
        ⟨400, .err (unavailableModelMsg "nano-banana".data), ⟨[], 0⟩,
          [GwEvent.listModels]⟩ :=
  C10_amended c10WMs "nano-banana".data
    (by exact ⟨⟨"nano-banana".data, none, []⟩, by decide, rfl⟩)
    (by
      intro m hm he
      have : m = ⟨"nano-banana".data, none, []⟩ := by
        cases List.mem_cons.mp hm with
        | inl hh => exact hh
        | inr hh => exact absurd hh (List.not_mem_nil m)
      rw [this]
      rfl)
    rfl rfl ⟨[], 0⟩ "u1".data "hi".data (by decide)
    (Except.ok ()) (Except.ok ⟨none, none⟩)

/-! ## Claim C5 -/

/-- An occurrence of `m` inside `P ++ x` lies inside `P`, inside `x`, or
spans the boundary, splitting `m` into a non-trivial suffix of `P` followed
by a non-trivial leading segment of `x`. -/
theorem infix_split_append {m P x : Str} (h : m <:+: P ++ x) :
    m <:+: P ∨ m <:+: x ∨
      ∃ i, 0 < i ∧ i < m.length ∧ (m.take i) <:+ P ∧ (m.drop i) <+: x := by
  obtain ⟨s, t, hst⟩ := h
  rw [List.append_assoc] at hst
  rcases List.append_eq_append_iff.mp hst with ⟨a1, hP, hmt⟩ | ⟨c1, hs, hx⟩
  · rcases List.append_eq_append_iff.mp hmt with ⟨w, ha1, ht⟩ | ⟨w, hm, hx⟩
    · left
      exact ⟨s, w, by rw [hP, ha1, List.append_assoc]⟩
    · cases w with
      | nil =>
        left
        rw [List.append_nil] at hm
        subst hm
        exact ⟨s, [], by rw [List.append_nil]; exact hP.symm⟩
      | cons wc wr =>
        cases a1 with
        | nil =>
          right; left
          rw [List.nil_append] at hm
          subst hm
          exact ⟨[], t, by rw [List.nil_append]; exact hx.symm⟩
        | cons ac ar =>
          right; right
          refine ⟨(ac :: ar).length, by simp, ?_, ?_, ?_⟩
          · rw [hm, List.length_append]
            simp
          · rw [hm, List.take_left]
            exact ⟨s, hP.symm⟩
          · rw [hm, List.drop_left]
            exact ⟨t, hx.symm⟩
  · right; left
    exact ⟨c1, t, by rw [hx, List.append_assoc]⟩

/-- When a marker `m` neither occurs in `P` nor can straddle the boundary
(no non-trivial leading segment of `m` is a trailing segment of `P`),
searching `P ++ x` is the same as searching `x`. -/
theorem substr_append_left_eq (m P x : Str)
    (hP : substr m P = false)
    (hspan : ∀ i, i < m.length → 0 < i → hasSuf (m.take i) P = false) :
    substr m (P ++ x) = substr m x := by
  cases hx : substr m x
  · cases hPx : substr m (P ++ x)
    · rfl
    · exfalso
      have hinf : m <:+: P ++ x := (substr_iff _ _).mp hPx
      rcases infix_split_append hinf with hc | hc |
        ⟨i, hi0, hilen, hsuf, hpre⟩
      · have hh := (substr_iff m P).mpr hc
        rw [hP] at hh
        exact Bool.false_ne_true hh
      · have hh := (substr_iff m x).mpr hc
        rw [hx] at hh
        exact Bool.false_ne_true hh
      · have hh := (hasSuf_iff (m.take i) P).mpr hsuf
        rw [hspan i hilen hi0] at hh
        exact Bool.false_ne_true hh
  · have hinf : m <:+: x := (substr_iff _ _).mp hx
    obtain ⟨s, t, hst⟩ := hinf
    have hbig : m <:+: P ++ x :=
      ⟨P ++ s, t, by rw [← hst]; simp [List.append_assoc]⟩
    rw [(substr_iff _ _).mpr hbig]

theorem lowerStr_append (a b : Str) :
    lowerStr (a ++ b) = lowerStr a ++ lowerStr b := List.map_append _ a b

/-- Classification in the claim's priority order: quota and rate-limit
markers first, then overload, then not-found, then authentication, and
Unknown with the message passed through verbatim otherwise. -/
def claimedClassify (mid : Str) (e : PyExn) : Nat × Str :=
  if substr "429".data e.msg ||
      substr "resource_exhausted".data (lowerStr e.msg) ||
      substr "RateLimitError".data e.typeName ||
      substr "ClientError".data e.typeName ||
      substr "rate limit".data (lowerStr e.msg) ||
      substr "quota".data (lowerStr e.msg) then
    (429, quotaMsg)
  else if substr "ServerError".data e.typeName || substr "503".data e.msg ||
      substr "unavailable".data (lowerStr e.msg) ||
      substr "overloaded".data (lowerStr e.msg) then
    (503, overloadedMsg)
  else if substr "NotFoundError".data e.typeName ||
      substr "404".data e.msg ||
      (substr "not found".data (lowerStr e.msg) &&
        substr "model".data (lowerStr e.msg)) then
    (404, "モデルが見つかりません: ".data ++ mid)
  else if substr "AuthenticationError".data e.typeName ||
      substr "401".data e.msg ||
      substr "authentication".data (lowerStr e.msg) ||
      substr "api key".data (lowerStr e.msg) ||
      substr "unauthorized".data (lowerStr e.msg) then
    (401, badKeyMsg)
  else (500, e.msg)

/-- Exception whose message carries both a quota marker and an overload
marker. -/
def c5Exn : PyExn := ⟨"Exception".data, "quota unavailable".data⟩

/-- C5 counterexample: for the message `"quota unavailable"` the claim's
priority order (quota markers first) demands 429, but the code checks the
bare `quota` substring only after the overload markers and answers 503. -/
theorem C5_counterexample :
    (claimedClassify "gemini-x".data c5Exn).1 = 429 ∧
      (classifyChatError "gemini-x".data c5Exn).1 = 503 ∧
      classifyChatError "gemini-x".data c5Exn ≠
        claimedClassify "gemini-x".data c5Exn := by
  refine ⟨rfl, rfl, by decide⟩

/-- Classification as the code actually behaves, flattened into one
cascade: `429`/`resource_exhausted`/RateLimitError/ClientError give 429,
then overload markers give 503, then not-found markers 404, then
authentication markers 401, then the bare `rate limit`/`quota` substrings
429; any other exception is re-raised with a wrapping prefix and the outer
handler returns 401 when the message contains `invalid`, else 500 with the
wrapped (not verbatim) message. -/
def amendedClassify (mid : Str) (e : PyExn) : Nat × Str :=
  if substr "429".data e.msg ||
      substr "resource_exhausted".data (lowerStr e.msg) ||
      substr "RateLimitError".data e.typeName ||
      substr "ClientError".data e.typeName then
    (429, quotaMsg)
  else if substr "ServerError".data e.typeName || substr "503".data e.msg ||
      substr "unavailable".data (lowerStr e.msg) ||
      substr "overloaded".data (lowerStr e.msg) then
    (503, overloadedMsg)
  else if substr "NotFoundError".data e.typeName ||
      substr "404".data e.msg ||
      (substr "not found".data (lowerStr e.msg) &&
        substr "model".data (lowerStr e.msg)) then
    (404, "モデルが見つかりません: ".data ++ mid)
  else if substr "AuthenticationError".data e.typeName ||
      substr "401".data e.msg ||
      substr "authentication".data (lowerStr e.msg) ||
      substr "api key".data (lowerStr e.msg) ||
      substr "unauthorized".data (lowerStr e.msg) then
    (401, badKeyMsg)
  else if substr "rate limit".data (lowerStr e.msg) ||
      substr "quota".data (lowerStr e.msg) then
    (429, rateLimitMsg)
  else if substr "invalid".data (lowerStr e.msg) then (401, badKeyMsg)
  else (500, "エラーが発生しました: ".data ++ (wrapMsg ++ e.msg))

/-- C5 (amended): the two-stage classification of the code (inner handler,
then re-raise into the outer handler with a wrapped message) equals the
flat cascade of `amendedClassify` on every exception. -/
theorem C5_amended (mid : Str) (e : PyExn) :
    classifyChatError mid e = amendedClassify mid e := by
  unfold classifyChatError classifyInner amendedClassify
  by_cases h1 : (substr "429".data e.msg ||
      substr "resource_exhausted".data (lowerStr e.msg) ||
      substr "RateLimitError".data e.typeName ||
      substr "ClientError".data e.typeName) = true
  · rw [if_pos h1, if_pos h1]
  · rw [if_neg h1, if_neg h1]
    by_cases h2 : (substr "ServerError".data e.typeName ||
        substr "503".data e.msg ||
        substr "unavailable".data (lowerStr e.msg) ||
        substr "overloaded".data (lowerStr e.msg)) = true
    · rw [if_pos h2, if_pos h2]
    · rw [if_neg h2, if_neg h2]
      by_cases h3 : (substr "NotFoundError".data e.typeName ||
          substr "404".data e.msg ||
          (substr "not found".data (lowerStr e.msg) &&
            substr "model".data (lowerStr e.msg))) = true
      · rw [if_pos h3, if_pos h3]
      · rw [if_neg h3, if_neg h3]
        by_cases h4 : (substr "AuthenticationError".data e.typeName ||
            substr "401".data e.msg ||
            substr "authentication".data (lowerStr e.msg) ||
            substr "api key".data (lowerStr e.msg) ||
            substr "unauthorized".data (lowerStr e.msg)) = true
        · rw [if_pos h4, if_pos h4]
        · rw [if_neg h4, if_neg h4]
          by_cases h5 : (substr "rate limit".data (lowerStr e.msg) ||
              substr "quota".data (lowerStr e.msg)) = true
          · rw [if_pos h5, if_pos h5]
          · rw [if_neg h5, if_neg h5]
            simp only [Bool.or_eq_true, not_or, Bool.not_eq_true]
              at h1 h2 h3 h4 h5
            obtain ⟨⟨⟨h1a, h1b⟩, h1c⟩, h1d⟩ := h1
            obtain ⟨⟨⟨h2a, h2b⟩, h2c⟩, h2d⟩ := h2
            obtain ⟨⟨h3a, h3b⟩, h3c⟩ := h3
            obtain ⟨⟨⟨⟨h4a, h4b⟩, h4c⟩, h4d⟩, h4e⟩ := h4
            obtain ⟨h5a, h5b⟩ := h5
            unfold classifyOuter
            rw [lowerStr_append,
              substr_append_left_eq "503".data wrapMsg e.msg
                (by decide) (by decide),
              substr_append_left_eq "unavailable".data (lowerStr wrapMsg)
                (lowerStr e.msg) (by decide) (by decide),
              substr_append_left_eq "overloaded".data (lowerStr wrapMsg)
                (lowerStr e.msg) (by decide) (by decide),
              h2b, h2c, h2d]
            rw [if_neg (by simp),
              substr_append_left_eq "authentication".data (lowerStr wrapMsg)
                (lowerStr e.msg) (by decide) (by decide),
              substr_append_left_eq "api key".data (lowerStr wrapMsg)
                (lowerStr e.msg) (by decide) (by decide),
              substr_append_left_eq "invalid".data (lowerStr wrapMsg)
                (lowerStr e.msg) (by decide) (by decide),
              substr_append_left_eq "unauthorized".data (lowerStr wrapMsg)
                (lowerStr e.msg) (by decide) (by decide),
              h4c, h4d, h4e]
            by_cases h6 : substr "invalid".data (lowerStr e.msg) = true
            · rw [if_pos (by simp [h6]), if_pos h6]
            · rw [if_neg (by simp [h6]), if_neg h6,
                substr_append_left_eq "429".data wrapMsg e.msg
                  (by decide) (by decide),
                substr_append_left_eq "resource_exhausted".data
                  (lowerStr wrapMsg) (lowerStr e.msg) (by decide) (by decide),
                substr_append_left_eq "rate limit".data (lowerStr wrapMsg)
                  (lowerStr e.msg) (by decide) (by decide),
                substr_append_left_eq "quota".data (lowerStr wrapMsg)
                  (lowerStr e.msg) (by decide) (by decide),
                h1a, h1b, h5a, h5b]
              rw [if_neg (by simp),
                substr_append_left_eq "404".data wrapMsg e.msg
                  (by decide) (by decide), h3b]
              rw [if_neg (by simp)]

end BridgeChatbot
